import Mathlib

/-!
Shallow embedding of `.github/workflows/scripts/generate-index.py`.

The script fetches GitHub Packages metadata (`api_get`, `fetch_packages`),
renders a static HTML index (`generate_html`) and writes it from `main`.
The network is modelled as an oracle `net : String → ApiResp` mapping each
requested URL to its outcome; standard output and standard error are modelled
as lists of emitted lines; Python exceptions are modelled with `Except PyErr`.
`datetime.now` is passed in as an explicit `build_time` parameter.
-/

namespace GenerateIndex

/-- JSON values as produced by `json.loads` on an API response body. -/
inductive Json where
  | null
  | bool (b : Bool)
  | num (n : Int)
  | str (s : String)
  | arr (elems : List Json)
  | obj (fields : List (String × Json))
deriving Repr

/-- Python exceptions the script can raise (payload: the offending name/key/attribute,
or the URLError message). -/
inductive PyErr where
  | nameError (name : String)
  | keyError (key : String)
  | attributeError (attr : String)
  | urlError (msg : String)
deriving Repr, DecidableEq

/-- Lower-case hexadecimal digit, for JSON control-character escapes. -/
def hexDigit (n : Nat) : Char :=
  if n < 10 then Char.ofNat (48 + n) else Char.ofNat (87 + n)

/-- One character of a JSON string literal, as `json.dumps` with
`ensure_ascii=False` emits it: escape quote, backslash and control characters,
pass everything else (including non-ASCII) through. -/
def jsonEscapeChar (c : Char) : String :=
  if c.toNat = 34 then "\\\""
  else if c.toNat = 92 then "\\\\"
  else if c.toNat = 10 then "\\n"
  else if c.toNat = 13 then "\\r"
  else if c.toNat = 9 then "\\t"
  else if c.toNat = 8 then "\\b"
  else if c.toNat = 12 then "\\f"
  else if c.toNat < 32 then
    "\\u00" ++ String.mk [hexDigit (c.toNat / 16), hexDigit (c.toNat % 16)]
  else String.singleton c

/-- A JSON string literal as `json.dumps` emits it. -/
def jsonQuote (s : String) : String :=
  "\"" ++ String.join (s.toList.map jsonEscapeChar) ++ "\""

mutual

/-- `json.dumps(-, ensure_ascii=False)` with the default separators. -/
def dumpsJson : Json → String
  | .null => "null"
  | .bool true => "true"
  | .bool false => "false"
  | .num n => toString n
  | .str s => jsonQuote s
  | .arr es => "[" ++ dumpsList es ++ "]"
  | .obj fs => "\x7b" ++ dumpsFields fs ++ "\x7d"

def dumpsList : List Json → String
  | [] => ""
  | [j] => dumpsJson j
  | j :: rest => dumpsJson j ++ ", " ++ dumpsList rest

def dumpsFields : List (String × Json) → String
  | [] => ""
  | [(k, v)] => jsonQuote k ++ ": " ++ dumpsJson v
  | (k, v) :: rest => jsonQuote k ++ ": " ++ dumpsJson v ++ ", " ++ dumpsFields rest

end

mutual

/-- Python `repr` of a value parsed from JSON (dicts/lists print with brackets,
strings print single-quoted, `None`/`True`/`False` print with Python spelling;
the escaping `repr` applies inside string quotes is not modelled). -/
def pyRepr : Json → String
  | .null => "None"
  | .bool true => "True"
  | .bool false => "False"
  | .num n => toString n
  | .str s => "\x27" ++ s ++ "\x27"
  | .arr es => "[" ++ pyReprList es ++ "]"
  | .obj fs => "\x7b" ++ pyReprFields fs ++ "\x7d"

def pyReprList : List Json → String
  | [] => ""
  | [j] => pyRepr j
  | j :: rest => pyRepr j ++ ", " ++ pyReprList rest

def pyReprFields : List (String × Json) → String
  | [] => ""
  | [(k, v)] => "\x27" ++ k ++ "\x27: " ++ pyRepr v
  | (k, v) :: rest => "\x27" ++ k ++ "\x27: " ++ pyRepr v ++ ", " ++ pyReprFields rest

end

/-- Python `str()` as applied by f-string interpolation: a string verbatim,
anything else via `repr`. -/
def pyStr : Json → String
  | .str s => s
  | j => pyRepr j

/-- Python substring test `pat in s` on the underlying character list. -/
def listIsInfix (pat : List Char) : List Char → Bool
  | [] => pat.isEmpty
  | c :: cs => pat.isPrefixOf (c :: cs) || listIsInfix pat cs

/-- Python substring test `pat in s`. -/
def strContains (s pat : String) : Bool :=
  listIsInfix pat.toList s.toList

/-- Outcome of one HTTP request. `urllib.request.urlopen` returns a body on a
2xx status, raises `urllib.error.HTTPError` (carrying status code and body) on
a non-2xx status, and raises `urllib.error.URLError` on a connection-level
failure (DNS, refused connection, ...). -/
inductive ApiResp where
  | success (body : Json)
  | httpError (code : Nat) (body : String)
  | urlError (msg : String)

/-- `api_get(url, token)` (lines 14-25). Returns the parsed JSON body plus the
lines printed to stderr. Only `HTTPError` is caught: it prints one diagnostic
line and returns `[]` when the URL mentions `versions` or `packages`, else an
empty dict. A `URLError` propagates out as an exception. The `token` only
feeds the request headers and does not influence the modelled outcome. -/
def api_get (net : String → ApiResp) (url token : String) :
    Except PyErr (Json × List String) :=
  match net url with
  | .success j => .ok (j, [])
  | .httpError code body =>
      .ok (if strContains url "versions" || strContains url "packages"
             then Json.arr [] else Json.obj [],
           ["API error " ++ toString code ++ " for " ++ url ++ ": " ++ body])
  | .urlError msg => .error (.urlError msg)

/-- The list-packages URL built on line 28. -/
def packagesUrl (owner : String) : String :=
  "https://api.github.com/users/" ++ owner ++ "/packages?package_type=maven&per_page=100"

/-- The list-versions URL built on line 39 (from the already URL-encoded name). -/
def versionsUrl (owner encoded : String) : String :=
  "https://api.github.com/users/" ++ owner ++ "/packages/maven/" ++ encoded ++
    "/versions?per_page=50"

/-- One entry of the `versions` list built on lines 47-55 (dict key order:
name, created_at, updated_at, html_url). Fields hold whatever JSON value
`v.get` returned; a missing key defaults to the JSON string `""`. -/
structure VersionRecord where
  name : Json
  created_at : Json
  updated_at : Json
  html_url : Json
deriving Repr

/-- One package record built on lines 41-56 (dict key order: name,
package_type, html_url, created_at, updated_at, versions). The `name` field is
a `String` because the script calls `name.replace` (line 38), which raises
unless the value is a Python `str`; the other fields hold the raw JSON value
`pkg.get` returned. -/
structure PackageRecord where
  name : String
  package_type : Json
  html_url : Json
  created_at : Json
  updated_at : Json
  versions : List VersionRecord
deriving Repr

/-- Python dict lookup with default (`d.get(k, default)` once `d` is known to
be a dict). -/
def dictGet (fields : List (String × Json)) (k : String) (default : Json) : Json :=
  match fields.lookup k with
  | some v => v
  | none => default

/-- Python `x.get(k, default)`: raises `AttributeError` when `x` is not a
dict. -/
def pyGet (j : Json) (k : String) (default : Json) : Except PyErr Json :=
  match j with
  | .obj fields => .ok (dictGet fields k default)
  | _ => .error (.attributeError "get")

/-- Coercion applied where the script calls the str method `.replace` on a
value of unknown shape: raises unless it is a string. -/
def asStr : Json → Except PyErr String
  | .str s => .ok s
  | _ => .error (.attributeError "replace")

/-- The isinstance(-, list) test (lines 30 and 54). -/
def jsonIsArr : Json → Bool
  | .arr _ => true
  | _ => false

/-- The expression of line 54: the value when it is a list, else the empty
list. -/
def asList : Json → List Json
  | .arr es => es
  | _ => []

/-- One element of the versions list comprehension (lines 48-53). -/
def buildVersion (v : Json) : Except PyErr VersionRecord :=
  match pyGet v "name" (Json.str "") with
  | .error e => .error e
  | .ok n =>
    match pyGet v "created_at" (Json.str "") with
    | .error e => .error e
    | .ok c =>
      match pyGet v "updated_at" (Json.str "") with
      | .error e => .error e
      | .ok u =>
        match pyGet v "html_url" (Json.str "") with
        | .error e => .error e
        | .ok h => .ok ⟨n, c, u, h⟩

/-- The versions list comprehension (lines 47-55), element by element. -/
def buildVersions : List Json → Except PyErr (List VersionRecord)
  | [] => .ok []
  | v :: rest =>
    match buildVersion v with
    | .error e => .error e
    | .ok r =>
      match buildVersions rest with
      | .error e => .error e
      | .ok rs => .ok (r :: rs)

/-- One iteration of the `for pkg in packages` loop (lines 35-56): look up the
name, print the progress line to stdout, URL-encode the name, fetch the
versions, and assemble the record. Returns the record together with the stdout
and stderr lines of this iteration. -/
def buildRecord (net : String → ApiResp) (owner token : String) (pkg : Json) :
    Except PyErr (PackageRecord × List String × List String) :=
  match pyGet pkg "name" (Json.str "") with
  | .error e => .error e
  | .ok nameJ =>
    let stdoutLine := "  Fetching versions for: " ++ pyStr nameJ
    match asStr nameJ with
    | .error e => .error e
    | .ok name =>
      let encoded := name.replace "/" "%2F"
      match api_get net (versionsUrl owner encoded) token with
      | .error e => .error e
      | .ok (versionsJ, errV) =>
        match pyGet pkg "package_type" (Json.str "maven") with
        | .error e => .error e
        | .ok packageTypeJ =>
          match pyGet pkg "html_url" (Json.str "") with
          | .error e => .error e
          | .ok htmlUrlJ =>
            match pyGet pkg "created_at" (Json.str "") with
            | .error e => .error e
            | .ok createdAtJ =>
              match pyGet pkg "updated_at" (Json.str "") with
              | .error e => .error e
              | .ok updatedAtJ =>
                match buildVersions (asList versionsJ) with
                | .error e => .error e
                | .ok vs =>
                  .ok ({ name := name, package_type := packageTypeJ,
                         html_url := htmlUrlJ, created_at := createdAtJ,
                         updated_at := updatedAtJ, versions := vs },
                       [stdoutLine], errV)

/-- The whole `for pkg in packages` loop, accumulating records in order and
concatenating the per-iteration stdout/stderr lines. -/
def processPackages (net : String → ApiResp) (owner token : String) :
    List Json → Except PyErr (List PackageRecord × List String × List String)
  | [] => .ok ([], [], [])
  | pkg :: rest =>
    match buildRecord net owner token pkg with
    | .error e => .error e
    | .ok (r, out1, err1) =>
      match processPackages net owner token rest with
      | .error e => .error e
      | .ok (rs, out2, err2) => .ok (r :: rs, out1 ++ out2, err1 ++ err2)

/-- Lexicographic comparison of character sequences by code point, the order
Python uses to compare str values. -/
def charListLe : List Char → List Char → Bool
  | [], _ => true
  | _ :: _, [] => false
  | a :: as, b :: bs =>
    if a.toNat < b.toNat then true
    else if b.toNat < a.toNat then false
    else charListLe as bs

/-- Python string comparison: lexicographic on code points, case-sensitive. -/
def strLe (a b : String) : Bool := charListLe a.toList b.toList

/-- The sort key relation of `result.sort(key=lambda p: p[\x27name\x27])`. -/
def nameLe (p q : PackageRecord) : Prop := strLe p.name q.name = true

instance : DecidableRel nameLe :=
  fun p q => inferInstanceAs (Decidable (strLe p.name q.name = true))

/-- `result.sort(key=lambda p: p[\x27name\x27])` (line 58). Python list.sort is
a stable sort by the key; a stable sort is extensionally determined by the key
order, and insertion sort is stable, so this is the same function. -/
def sortByName (l : List PackageRecord) : List PackageRecord :=
  l.insertionSort nameLe

/-- `fetch_packages(owner, token)` (lines 27-59). Returns the sorted record
list together with the stdout and stderr lines, or the propagated exception. -/
def fetch_packages (net : String → ApiResp) (owner token : String) :
    Except PyErr (List PackageRecord × List String × List String) :=
  match api_get net (packagesUrl owner) token with
  | .error e => .error e
  | .ok (packagesJ, err0) =>
    match packagesJ with
    | .arr pkgs =>
      (match processPackages net owner token pkgs with
       | .error e => .error e
       | .ok (recs, outs, errs) => .ok (sortByName recs, outs, err0 ++ errs))
    | j => .ok ([], [], err0 ++ ["Unexpected response: " ++ pyStr j])

/-- The JSON value that `json.dumps` receives for one version record (the dict
literal of lines 48-53, in key order). -/
def versionToJson (v : VersionRecord) : Json :=
  .obj [("name", v.name), ("created_at", v.created_at),
        ("updated_at", v.updated_at), ("html_url", v.html_url)]

/-- The JSON value that `json.dumps` receives for one package record (the dict
literal of lines 41-56, in key order). -/
def packageToJson (p : PackageRecord) : Json :=
  .obj [("name", .str p.name), ("package_type", p.package_type),
        ("html_url", p.html_url), ("created_at", p.created_at),
        ("updated_at", p.updated_at),
        ("versions", .arr (p.versions.map versionToJson))]

/-- The full package list as a JSON value. -/
def packagesToJson (ps : List PackageRecord) : Json :=
  .arr (ps.map packageToJson)

/-- Line 66: the sum of the version-list lengths over all package records. -/
def totalVersions (packages : List PackageRecord) : Nat :=
  (packages.map (fun p => p.versions.length)).sum

/-- A piece of the template of lines 68-369: literal text (with the
doubled-brace escapes of the f-string already decoded) or a replacement field
naming the variable it interpolates. -/
inductive TemplatePart where
  | lit (s : String)
  | field (name : String)

/-- Evaluation of a Python f-string: replacement fields are resolved against
the enclosing scope left to right, and an unbound name raises NameError at the
point it is reached. -/
def fstringEval (env : String → Option String) :
    List TemplatePart → String → Except PyErr String
  | [], acc => .ok acc
  | .lit s :: rest, acc => fstringEval env rest (acc ++ s)
  | .field n :: rest, acc =>
    match env n with
    | some v => fstringEval env rest (acc ++ v)
    | none => .error (.nameError n)

/-- The f-string template of lines 68-369, split into chunks in source order:
literal runs (split at line boundaries for readability; consecutive lit parts
concatenate) and the replacement fields exactly as they appear in the source.
-/
def templateParts00 : List TemplatePart := [
  .lit "<!DOCTYPE html>\n<html lang=\"zh-CN\">\n<head>\n<meta charset=\"UTF-8\">\n<meta name=\"viewport\" content=\"width=device-width, initial-scale=1.0\">\n",
  .lit "<title>OpenStack4j Maven Packages</title>\n",
  .lit "<link href=\"https://fonts.googleapis.com/css2?family=JetBrains+Mono:wght@400;500;700&family=DM+Sans:wght@400;500;600;700&display=swap\" rel=\"stylesheet\">\n",
  .lit "<style>\n  :root \x7b\n    --bg: #0d1117;\n    --surface: #161b22;\n    --surface-2: #1c2129;\n    --border: #30363d;\n    --border-active: #58a6ff;\n",
  .lit "    --text: #e6edf3;\n    --text-muted: #8b949e;\n    --text-dim: #6e7681;\n    --accent: #58a6ff;\n    --accent-glow: rgba(88, 166, 255, 0.15);\n",
  .lit "    --green: #3fb950;\n    --orange: #d29922;\n    --red: #f85149;\n    --purple: #bc8cff;\n    --mono: \x27JetBrains Mono\x27, monospace;\n",
  .lit "    --sans: \x27DM Sans\x27, sans-serif;\n  \x7d\n  * \x7b margin: 0; padding: 0; box-sizing: border-box; \x7d\n  body \x7b\n    background: var(--bg);\n",
  .lit "    color: var(--text);\n    font-family: var(--sans);\n    min-height: 100vh;\n    line-height: 1.6;\n  \x7d\n\n  .header \x7b\n",
  .lit "    border-bottom: 1px solid var(--border);\n    padding: 2rem 0;\n    background: linear-gradient(180deg, #111820 0%, var(--bg) 100%);\n  \x7d\n",
  .lit "  .container \x7b max-width: 960px; margin: 0 auto; padding: 0 1.5rem; \x7d\n  .header-inner \x7b display: flex; align-items: center; gap: 1rem; \x7d\n",
  .lit "  .logo-icon \x7b\n    width: 44px; height: 44px;\n    background: linear-gradient(135deg, var(--accent), var(--purple));\n    border-radius: 10px;\n",
  .lit "    display: flex; align-items: center; justify-content: center;\n    font-family: var(--mono); font-weight: 700; font-size: 18px; color: #fff;\n"
]

def templateParts01 : List TemplatePart := [
  .lit "    flex-shrink: 0;\n  \x7d\n  .header-text h1 \x7b font-size: 1.5rem; font-weight: 700; letter-spacing: -0.02em; \x7d\n",
  .lit "  .header-text h1 span \x7b color: var(--text-muted); font-weight: 400; \x7d\n  .header-meta \x7b\n    display: flex; gap: 1.5rem; margin-top: 0.4rem;\n",
  .lit "    font-size: 0.78rem; color: var(--text-dim); font-family: var(--mono);\n  \x7d\n  .header-meta a \x7b color: var(--accent); text-decoration: none; \x7d\n",
  .lit "  .header-meta a:hover \x7b text-decoration: underline; \x7d\n\n  .summary \x7b\n    display: flex; gap: 1.5rem; padding: 1rem 0; margin-bottom: 1rem;\n",
  .lit "    border-bottom: 1px solid var(--border);\n    font-size: 0.8rem; color: var(--text-muted); font-family: var(--mono);\n  \x7d\n",
  .lit "  .summary strong \x7b color: var(--text); \x7d\n\n  .main \x7b padding: 2rem 0 4rem; \x7d\n\n  .package-card \x7b\n    background: var(--surface);\n",
  .lit "    border: 1px solid var(--border);\n    border-radius: 8px;\n    margin-bottom: 0.75rem;\n    overflow: hidden;\n    transition: border-color 0.2s;\n  \x7d\n",
  .lit "  .package-card:hover \x7b border-color: var(--border-active); \x7d\n  .package-header \x7b\n    padding: 1rem 1.25rem;\n",
  .lit "    display: flex; align-items: center; justify-content: space-between;\n    cursor: pointer; user-select: none;\n  \x7d\n  .package-name \x7b\n",
  .lit "    font-family: var(--mono); font-size: 0.88rem; font-weight: 600; color: var(--accent);\n  \x7d\n",
  .lit "  .package-name a \x7b color: inherit; text-decoration: none; \x7d\n  .package-name a:hover \x7b text-decoration: underline; \x7d\n",
  .lit "  .package-meta \x7b display: flex; align-items: center; gap: 1rem; \x7d\n  .badge \x7b\n    font-size: 0.65rem; font-family: var(--mono);\n"
]

def templateParts02 : List TemplatePart := [
  .lit "    padding: 0.15rem 0.45rem; border-radius: 4px;\n    text-transform: uppercase; font-weight: 600;\n  \x7d\n",
  .lit "  .badge-maven \x7b background: var(--accent-glow); color: var(--accent); \x7d\n",
  .lit "  .badge-snapshot \x7b background: rgba(210, 153, 34, 0.15); color: var(--orange); \x7d\n",
  .lit "  .badge-release \x7b background: rgba(63, 185, 80, 0.15); color: var(--green); \x7d\n",
  .lit "  .version-count \x7b font-size: 0.75rem; color: var(--text-muted); font-family: var(--mono); \x7d\n  .chevron \x7b\n",
  .lit "    color: var(--text-dim); transition: transform 0.2s; font-size: 0.7rem;\n  \x7d\n  .package-card.open .chevron \x7b transform: rotate(90deg); \x7d\n",
  .lit "  .version-list \x7b display: none; border-top: 1px solid var(--border); \x7d\n  .package-card.open .version-list \x7b display: block; \x7d\n  .version-item \x7b\n",
  .lit "    padding: 0.6rem 1.25rem;\n    display: flex; align-items: center; justify-content: space-between;\n",
  .lit "    border-bottom: 1px solid rgba(48, 54, 61, 0.5);\n    font-size: 0.8rem;\n    transition: background 0.15s;\n  \x7d\n",
  .lit "  .version-item:last-child \x7b border-bottom: none; \x7d\n  .version-item:hover \x7b background: var(--surface-2); \x7d\n  .version-tag \x7b\n",
  .lit "    font-family: var(--mono); font-weight: 500; color: var(--text);\n    display: flex; align-items: center; gap: 0.5rem;\n  \x7d\n",
  .lit "  .version-date \x7b font-family: var(--mono); font-size: 0.75rem; color: var(--text-dim); \x7d\n\n  /* Usage section */\n  .usage-section \x7b\n"
]

def templateParts03 : List TemplatePart := [
  .lit "    background: var(--surface);\n    border: 1px solid var(--border);\n    border-radius: 8px;\n    padding: 1.5rem;\n    margin-top: 2rem;\n  \x7d\n",
  .lit "  .usage-section h3 \x7b\n    font-size: 0.85rem; color: var(--text-muted);\n    text-transform: uppercase; letter-spacing: 0.05em;\n",
  .lit "    margin-bottom: 1rem; font-weight: 600;\n  \x7d\n  .code-label \x7b\n    font-size: 0.75rem; color: var(--text-dim);\n",
  .lit "    margin-bottom: 0.4rem; font-family: var(--mono);\n    margin-top: 1rem;\n  \x7d\n  .code-label:first-of-type \x7b margin-top: 0; \x7d\n  .code-block \x7b\n",
  .lit "    background: var(--bg);\n    border: 1px solid var(--border);\n    border-radius: 6px;\n    padding: 1rem;\n    font-family: var(--mono);\n",
  .lit "    font-size: 0.76rem;\n    line-height: 1.7;\n    overflow-x: auto;\n    position: relative;\n    white-space: pre;\n  \x7d\n",
  .lit "  .code-block .t \x7b color: var(--red); \x7d\n  .code-block .v \x7b color: var(--green); \x7d\n  .code-block .c \x7b color: var(--text-dim); font-style: italic; \x7d\n",
  .lit "  .copy-btn \x7b\n    position: absolute; top: 0.5rem; right: 0.5rem;\n    background: var(--surface-2);\n    border: 1px solid var(--border);\n",
  .lit "    color: var(--text-muted);\n    border-radius: 4px;\n    padding: 0.2rem 0.5rem;\n    font-size: 0.68rem;\n    font-family: var(--mono);\n",
  .lit "    cursor: pointer;\n    transition: all 0.15s;\n  \x7d\n  .copy-btn:hover \x7b color: var(--text); border-color: var(--accent); \x7d\n\n  .footer \x7b\n",
  .lit "    text-align: center; padding: 2rem 0;\n    font-size: 0.72rem; color: var(--text-dim);\n    font-family: var(--mono);\n",
  .lit "    border-top: 1px solid var(--border);\n  \x7d\n  .footer a \x7b color: var(--accent); text-decoration: none; \x7d\n</style>\n</head>\n<body>\n\n"
]

def templateParts04 : List TemplatePart := [
  .lit "<div class=\"header\">\n  <div class=\"container\">\n    <div class=\"header-inner\">\n      <div class=\"logo-icon\">O4</div>\n      <div class=\"header-text\">\n",
  .lit "        <h1>openstack4j <span>packages</span></h1>\n        <div class=\"header-meta\">\n          <span>üì¶ registry: maven</span>\n",
  .lit "          <a href=\"https://github.com/",
  .field "owner",
  .lit "/",
  .field "repo",
  .lit "\">github.com/",
  .field "owner",
  .lit "/",
  .field "repo",
  .lit "</a>\n          <span>Êõ¥Êñ∞‰∫é ",
  .field "build_time"
]

def templateParts05 : List TemplatePart := [
  .lit "</span>\n        </div>\n      </div>\n    </div>\n  </div>\n</div>\n\n<div class=\"main\">\n  <div class=\"container\">\n    <div class=\"summary\">\n",
  .lit "      <span><strong>",
  .field "pkg_count",
  .lit "</strong> ÂåÖ</span>\n      <span><strong>",
  .field "ver_count",
  .lit "</strong> ÁâàÊú¨</span>\n      <span>commit: <strong><a href=\"https://github.com/",
  .field "owner",
  .lit "/",
  .field "repo",
  .lit "/commit/",
  .field "commit_sha",
  .lit "\" style=\"color:var(--text);text-decoration:none\">"
]

def templateParts06 : List TemplatePart := [
  .field "short_sha",
  .lit "</a></strong></span>\n    </div>\n\n    <div id=\"packageList\"></div>\n\n    <div class=\"usage-section\">\n      <h3>‰ΩøÁî®ÊñπÊ≥ï / Usage</h3>\n\n",
  .lit "      <div class=\"code-label\">~/.m2/settings.xml</div>\n      <div class=\"code-block\"><span class=\"t\">&lt;servers&gt;</span>\n",
  .lit "  <span class=\"t\">&lt;server&gt;</span>\n    <span class=\"t\">&lt;id&gt;</span><span class=\"v\">github</span><span class=\"t\">&lt;/id&gt;</span>\n",
  .lit "    <span class=\"t\">&lt;username&gt;</span><span class=\"v\">YOUR_GITHUB_USERNAME</span><span class=\"t\">&lt;/username&gt;</span>\n",
  .lit "    <span class=\"t\">&lt;password&gt;</span><span class=\"v\">ghp_xxxxxxxxxxxx</span><span class=\"t\">&lt;/password&gt;</span>  <span class=\"c\">&lt;!-- read:packages scope --&gt;</span>\n",
  .lit "  <span class=\"t\">&lt;/server&gt;</span>\n",
  .lit "<span class=\"t\">&lt;/servers&gt;</span><button class=\"copy-btn\" onclick=\"copyBlock(this)\">Copy</button></div>\n\n",
  .lit "      <div class=\"code-label\">pom.xml ‚Äî Ê∑ªÂä†‰ªìÂ∫ì</div>\n      <div class=\"code-block\"><span class=\"t\">&lt;repositories&gt;</span>\n",
  .lit "  <span class=\"t\">&lt;repository&gt;</span>\n    <span class=\"t\">&lt;id&gt;</span><span class=\"v\">github</span><span class=\"t\">&lt;/id&gt;</span>\n",
  .lit "    <span class=\"t\">&lt;url&gt;</span><span class=\"v\">https://maven.pkg.github.com/",
  .field "owner"
]

def templateParts07 : List TemplatePart := [
  .lit "/",
  .field "repo",
  .lit "</span><span class=\"t\">&lt;/url&gt;</span>\n",
  .lit "    <span class=\"t\">&lt;snapshots&gt;&lt;enabled&gt;</span><span class=\"v\">true</span><span class=\"t\">&lt;/enabled&gt;&lt;/snapshots&gt;</span>\n",
  .lit "  <span class=\"t\">&lt;/repository&gt;</span>\n",
  .lit "<span class=\"t\">&lt;/repositories&gt;</span><button class=\"copy-btn\" onclick=\"copyBlock(this)\">Copy</button></div>\n\n",
  .lit "      <div class=\"code-label\">pom.xml ‚Äî Ê∑ªÂä†‰æùËµñÔºàÁ§∫‰æãÔºâ</div>\n      <div class=\"code-block\"><span class=\"t\">&lt;dependency&gt;</span>\n",
  .lit "  <span class=\"t\">&lt;groupId&gt;</span><span class=\"v\">com.github.openstack4j.core</span><span class=\"t\">&lt;/groupId&gt;</span>\n",
  .lit "  <span class=\"t\">&lt;artifactId&gt;</span><span class=\"v\">openstack4j-core</span><span class=\"t\">&lt;/artifactId&gt;</span>\n",
  .lit "  <span class=\"t\">&lt;version&gt;</span><span class=\"v\">3.13-SNAPSHOT</span><span class=\"t\">&lt;/version&gt;</span>\n",
  .lit "<span class=\"t\">&lt;/dependency&gt;</span>\n<span class=\"t\">&lt;dependency&gt;</span>\n",
  .lit "  <span class=\"t\">&lt;groupId&gt;</span><span class=\"v\">com.github.openstack4j.core.connectors</span><span class=\"t\">&lt;/groupId&gt;</span>\n"
]

def templateParts08 : List TemplatePart := [
  .lit "  <span class=\"t\">&lt;artifactId&gt;</span><span class=\"v\">openstack4j-okhttp</span><span class=\"t\">&lt;/artifactId&gt;</span>\n",
  .lit "  <span class=\"t\">&lt;version&gt;</span><span class=\"v\">3.13-SNAPSHOT</span><span class=\"t\">&lt;/version&gt;</span>\n",
  .lit "<span class=\"t\">&lt;/dependency&gt;</span><button class=\"copy-btn\" onclick=\"copyBlock(this)\">Copy</button></div>\n    </div>\n  </div>\n</div>\n\n",
  .lit "<div class=\"footer\">\n  Auto-generated by <a href=\"https://github.com/",
  .field "owner",
  .lit "/",
  .field "repo",
  .lit "/actions\">GitHub Actions</a> ¬∑ ",
  .field "build_time",
  .lit "\n</div>\n\n<script>\nconst PACKAGES = ",
  .field "pkg_json",
  .lit ";\n\nfunction render() \x7b\n  const container = document.getElementById(\x27packageList\x27);\n  let html = \x27\x27;\n\n  for (const pkg of PACKAGES) \x7b\n"
]

def templateParts09 : List TemplatePart := [
  .lit "    const versions = pkg.versions || [];\n    const vItems = versions.map(v => \x7b\n      const isSnap = v.name.includes(\x27SNAPSHOT\x27);\n",
  .lit "      const badge = isSnap\n        ? \x27<span class=\"badge badge-snapshot\">snapshot</span>\x27\n",
  .lit "        : \x27<span class=\"badge badge-release\">release</span>\x27;\n      const date = v.updated_at\n",
  .lit "        ? new Date(v.updated_at).toLocaleDateString(\x27zh-CN\x27, \x7b\n            year:\x27numeric\x27, month:\x272-digit\x27, day:\x272-digit\x27,\n",
  .lit "            hour:\x272-digit\x27, minute:\x272-digit\x27\n          \x7d)\n        : \x27\x27;\n      return \x60<div class=\"version-item\">\n",
  .lit "        <span class=\"version-tag\">$\x7bv.name\x7d $\x7bbadge\x7d</span>\n        <span class=\"version-date\">$\x7bdate\x7d</span>\n      </div>\x60;\n    \x7d).join(\x27\x27);\n\n",
  .lit "    const ghUrl = pkg.html_url || \x27#\x27;\n    html += \x60<div class=\"package-card\" onclick=\"this.classList.toggle(\x27open\x27)\">\n",
  .lit "      <div class=\"package-header\">\n",
  .lit "        <span class=\"package-name\"><a href=\"$\x7bghUrl\x7d\" target=\"_blank\" onclick=\"event.stopPropagation()\">$\x7bpkg.name\x7d</a></span>\n",
  .lit "        <div class=\"package-meta\">\n          <span class=\"badge badge-maven\">maven</span>\n",
  .lit "          <span class=\"version-count\">$\x7bversions.length\x7d ÁâàÊú¨</span>\n          <span class=\"chevron\">‚ñ∂</span>\n        </div>\n      </div>\n",
  .lit "      <div class=\"version-list\" onclick=\"event.stopPropagation()\">\n"
]

def templateParts10 : List TemplatePart := [
  .lit "        $\x7bvItems || \x27<div class=\"version-item\"><span class=\"version-tag\" style=\"color:var(--text-dim)\">Êó†ÁâàÊú¨‰ø°ÊÅØ</span></div>\x27\x7d\n      </div>\n",
  .lit "    </div>\x60;\n  \x7d\n\n  container.innerHTML = html;\n\x7d\n\nfunction copyBlock(btn) \x7b\n  const block = btn.parentElement;\n",
  .lit "  const text = block.innerText.replace(/Copy|Copied!/g, \x27\x27).trim();\n  navigator.clipboard.writeText(text).then(() => \x7b\n",
  .lit "    btn.textContent = \x27Copied!\x27;\n    setTimeout(() => btn.textContent = \x27Copy\x27, 1500);\n  \x7d);\n\x7d\n\nrender();\n</script>\n\n</body>\n</html>"
]

/-- The template parts in source order, chunks concatenated. -/
def templateParts : List TemplatePart :=
  templateParts00 ++ templateParts01 ++ templateParts02 ++ templateParts03 ++ templateParts04 ++ templateParts05 ++ templateParts06 ++ templateParts07 ++ templateParts08 ++ templateParts09 ++ templateParts10

def lbrace : Char := Char.ofNat 123

def rbrace : Char := Char.ofNat 125

mutual

/-- Model of Python str.format scanning its format string: doubled braces are
escapes, a single opening brace starts a replacement field, a stray closing
brace is an error. Conversion and format-spec details beyond splitting the
field at a colon are not modelled; no execution of generate_html ever reaches
this function, because the f-string evaluation raises first. -/
def formatScan (kwargs : String → Option String) :
    List Char → String → Except PyErr String
  | [], acc => .ok acc
  | c :: cs, acc =>
    if c = lbrace then
      match cs with
      | [] => .error (.keyError "")
      | c2 :: cs2 =>
        if c2 = lbrace then formatScan kwargs cs2 (acc.push lbrace)
        else formatField kwargs (c2 :: cs2) [] acc
    else if c = rbrace then
      match cs with
      | [] => .error (.keyError "")
      | c2 :: cs2 =>
        if c2 = rbrace then formatScan kwargs cs2 (acc.push rbrace)
        else .error (.keyError "")
    else formatScan kwargs cs (acc.push c)
termination_by chars _ => chars.length
decreasing_by all_goals simp_wf <;> omega

/-- Reading one str.format replacement field up to its closing brace. -/
def formatField (kwargs : String → Option String) :
    List Char → List Char → String → Except PyErr String
  | [], _, _ => .error (.keyError "")
  | c :: cs, fieldAcc, acc =>
    if c = rbrace then
      let name := String.mk ((fieldAcc.reverse).takeWhile (fun d => d.toNat ≠ 58))
      match kwargs name with
      | some v => formatScan kwargs cs (acc ++ v)
      | none => .error (.keyError name)
    else formatField kwargs cs (c :: fieldAcc) acc
termination_by chars _ _ => chars.length
decreasing_by all_goals simp_wf

end

/-- generate_html(packages, owner, repo, commit_sha) of lines 61-378, with
build_time (datetime.now of line 62) passed in as a parameter. The template of
lines 68-369 is a Python f-string — line 68 opens it with an f-prefixed triple
quote — so its replacement fields are resolved against the local scope the
moment the return expression runs; the str.format call of lines 369-378 with
keyword arguments owner, repo, build_time, commit_sha, short_sha, pkg_count,
ver_count and pkg_json would only be applied to the result of that evaluation.
The names pkg_count and ver_count (summary line, source lines 264-265) are
format keywords only and are bound to no variable in scope, so the f-string
evaluation raises NameError when it reaches the pkg_count field. -/
def generate_html (packages : List PackageRecord)
    (owner repo commit_sha build_time : String) : Except PyErr String :=
  let short_sha := if commit_sha.isEmpty then "" else commit_sha.take 7
  let pkg_json := dumpsJson (packagesToJson packages)
  let total_versions := totalVersions packages
  let env : String → Option String := fun n =>
    if n = "packages" then some (pyStr (packagesToJson packages))
    else if n = "owner" then some owner
    else if n = "repo" then some repo
    else if n = "commit_sha" then some commit_sha
    else if n = "build_time" then some build_time
    else if n = "short_sha" then some short_sha
    else if n = "pkg_json" then some pkg_json
    else if n = "total_versions" then some (toString total_versions)
    else none
  match fstringEval env templateParts "" with
  | .error e => .error e
  | .ok s =>
    let kwargs : String → Option String := fun n =>
      if n = "owner" then some owner
      else if n = "repo" then some repo
      else if n = "build_time" then some build_time
      else if n = "commit_sha" then some commit_sha
      else if n = "short_sha" then some short_sha
      else if n = "pkg_count" then some (toString packages.length)
      else if n = "ver_count" then some (toString total_versions)
      else if n = "pkg_json" then some pkg_json
      else none
    formatScan kwargs s.toList ""

/-- Result of one run of main (lines 381-404): the explicit sys.exit(1) after
the usage message, an uncaught exception terminating the process, or normal
completion with the written document and the accumulated stdout and stderr
lines. The directory creation and file write of lines 397-399 are not
modelled beyond recording the document text; stream output of a crashed run
is not tracked. -/
inductive MainResult where
  | exited (code : Nat) (stdout : List String)
  | crashed (e : PyErr)
  | completed (html : String) (stdout stderr : List String)

/-- The usage line printed on line 383. -/
def usageMsg : String :=
  "Usage: python3 generate-index.py <owner> <repo> <token> [commit_sha]"

/-- main() (lines 381-401). `argv` models sys.argv, script name included, so
fewer than 3 positional arguments means argv has fewer than 4 entries. -/
def mainFn (net : String → ApiResp) (buildTime : String) (argv : List String) :
    MainResult :=
  if argv.length < 4 then .exited 1 [usageMsg]
  else
    match fetch_packages net (argv.getD 1 "") (argv.getD 3 "") with
    | .error e => .crashed e
    | .ok (pkgs, out, err) =>
      match generate_html pkgs (argv.getD 1 "") (argv.getD 2 "") (argv.getD 4 "")
          buildTime with
      | .error e => .crashed e
      | .ok html =>
        .completed html
          (["Fetching packages for " ++ argv.getD 1 "" ++ "/" ++ argv.getD 2 "" ++ "..."]
            ++ out ++
           ["Found " ++ toString pkgs.length ++ " packages"] ++
           ["Generated _site/index.html (" ++ toString html.length ++ " bytes)"])
          err

/-- The f-string template evaluation reaches the field pkg_count (summary line,
source line 264) after only owner, repo and build_time, all bound; pkg_count is
bound by no local, so every call of generate_html raises NameError there,
whatever the inputs. Shared helper for reasoning about main. -/
theorem generate_html_nameError (packages : List PackageRecord)
    (owner repo commit_sha build_time : String) :
    generate_html packages owner repo commit_sha build_time =
      Except.error (.nameError "pkg_count") := rfl

/-- Totality of the code-point comparison. -/
theorem charListLe_total : ∀ as bs, charListLe as bs = true ∨ charListLe bs as = true
  | [], _ => Or.inl rfl
  | _ :: _, [] => Or.inr rfl
  | a :: as, b :: bs => by
    by_cases h1 : a.toNat < b.toNat
    · exact Or.inl (by simp [charListLe, h1])
    · by_cases h2 : b.toNat < a.toNat
      · exact Or.inr (by simp [charListLe, h2])
      · rcases charListLe_total as bs with h | h
        · exact Or.inl (by simp [charListLe, h1, h2, h])
        · exact Or.inr (by simp [charListLe, h1, h2, h])

/-- Transitivity of the code-point comparison. -/
theorem charListLe_trans : ∀ as bs cs, charListLe as bs = true →
    charListLe bs cs = true → charListLe as cs = true
  | [], _, _, _, _ => rfl
  | _ :: _, [], _, h1, _ => by simp [charListLe] at h1
  | _ :: _, _ :: _, [], _, h2 => by simp [charListLe] at h2
  | a :: as, b :: bs, c :: cs, h1, h2 => by
    simp only [charListLe] at h1 h2 ⊢
    by_cases hab : a.toNat < b.toNat
    · rw [if_pos hab] at h1
      by_cases hbc : b.toNat < c.toNat
      · rw [if_pos (show a.toNat < c.toNat by omega)]
      · rw [if_neg hbc] at h2
        by_cases hcb : c.toNat < b.toNat
        · rw [if_pos hcb] at h2; simp at h2
        · rw [if_neg hcb] at h2
          rw [if_pos (show a.toNat < c.toNat by omega)]
    · rw [if_neg hab] at h1
      by_cases hba : b.toNat < a.toNat
      · rw [if_pos hba] at h1; simp at h1
      · rw [if_neg hba] at h1
        by_cases hbc : b.toNat < c.toNat
        · rw [if_pos hbc] at h2
          rw [if_pos (show a.toNat < c.toNat by omega)]
        · rw [if_neg hbc] at h2
          by_cases hcb : c.toNat < b.toNat
          · rw [if_pos hcb] at h2; simp at h2
          · rw [if_neg hcb] at h2
            rw [if_neg (show ¬ a.toNat < c.toNat by omega),
                if_neg (show ¬ c.toNat < a.toNat by omega)]
            exact charListLe_trans as bs cs h1 h2

/-- C1: the claim says that on an empty fetched package sequence generate_html
still returns a well-formed HTML document with package count 0 and version
count 0 and does not raise. The code disagrees: the template is an f-string
evaluated before str.format supplies pkg_count, so generate_html raises
NameError for the unbound name pkg_count on the empty sequence, for every
account, repository and revision identifier (and build time). -/
theorem c1_generate_html_empty_raises (owner repo commit_sha build_time : String) :
    generate_html [] owner repo commit_sha build_time =
      Except.error (.nameError "pkg_count") := rfl

/-- C2: the claim says the version count displayed in the summary equals the
sum of the versions-list lengths. The sum is indeed computed (totalVersions,
source line 66: here 1 + 2 = 3 on the spec example inputs), but no summary is
ever displayed: generate_html raises NameError for pkg_count — the field just
before ver_count in the summary line — so no document containing a version
count is returned. -/
theorem c2_version_total_never_rendered :
    totalVersions
        [{ name := "b-lib", package_type := Json.str "maven",
           html_url := Json.str "", created_at := Json.str "",
           updated_at := Json.str "",
           versions := [{ name := Json.str "1.0.0", created_at := Json.str "",
                          updated_at := Json.str "", html_url := Json.str "" }] },
         { name := "a-lib", package_type := Json.str "maven",
           html_url := Json.str "", created_at := Json.str "",
           updated_at := Json.str "",
           versions := [{ name := Json.str "2.0.0-SNAPSHOT", created_at := Json.str "",
                          updated_at := Json.str "", html_url := Json.str "" },
                        { name := Json.str "1.0.0", created_at := Json.str "",
                          updated_at := Json.str "", html_url := Json.str "" }] }] = 3 ∧
    generate_html
        [{ name := "b-lib", package_type := Json.str "maven",
           html_url := Json.str "", created_at := Json.str "",
           updated_at := Json.str "",
           versions := [{ name := Json.str "1.0.0", created_at := Json.str "",
                          updated_at := Json.str "", html_url := Json.str "" }] },
         { name := "a-lib", package_type := Json.str "maven",
           html_url := Json.str "", created_at := Json.str "",
           updated_at := Json.str "",
           versions := [{ name := Json.str "2.0.0-SNAPSHOT", created_at := Json.str "",
                          updated_at := Json.str "", html_url := Json.str "" },
                        { name := Json.str "1.0.0", created_at := Json.str "",
                          updated_at := Json.str "", html_url := Json.str "" }] }]
        "acme" "widgets" "" "2024-01-01 00:00:00 UTC" =
      Except.error (.nameError "pkg_count") :=
  ⟨rfl, rfl⟩

/-- C3: whenever fetch_packages returns normally, the record list it returns
is sorted by package name, ascending, case-sensitive lexicographic (source
line 58 sorts with key p-name before returning). -/
theorem c3_fetch_packages_sorted_by_name
    (net : String → ApiResp) (owner token : String)
    (res : List PackageRecord × List String × List String)
    (h : fetch_packages net owner token = .ok res) :
    res.1.Pairwise (fun p q => strLe p.name q.name = true) := by
  unfold fetch_packages at h
  split at h
  · exact absurd h (by simp)
  · split at h
    · split at h
      · exact absurd h (by simp)
      · injection h with h'
        rw [← h']
        exact @List.sorted_insertionSort _ nameLe _
          ⟨fun a b => charListLe_total a.name.toList b.name.toList⟩
          ⟨fun a b c h1 h2 =>
            charListLe_trans a.name.toList b.name.toList c.name.toList h1 h2⟩ _
    · injection h with h'
      rw [← h']
      simp

set_option maxRecDepth 8000 in
/-- C3 witness: a network serving two packages named b-lib and a-lib, in that
order; the fetched result comes back sorted a-lib before b-lib. -/
theorem c3_fetch_packages_sorted_by_name_witness :
    ([{ name := "a-lib", package_type := Json.str "maven", html_url := Json.str "",
        created_at := Json.str "", updated_at := Json.str "", versions := [] },
      { name := "b-lib", package_type := Json.str "maven", html_url := Json.str "",
        created_at := Json.str "", updated_at := Json.str "", versions := [] }] :
      List PackageRecord).Pairwise (fun p q => strLe p.name q.name = true) := by
  have h :
      fetch_packages
          (fun u => if u = packagesUrl "acme"
            then ApiResp.success (Json.arr [Json.obj [("name", Json.str "b-lib")],
                                            Json.obj [("name", Json.str "a-lib")]])
            else ApiResp.success (Json.arr []))
          "acme" "tok" =
        .ok ([{ name := "a-lib", package_type := Json.str "maven", html_url := Json.str "",
                created_at := Json.str "", updated_at := Json.str "", versions := [] },
              { name := "b-lib", package_type := Json.str "maven", html_url := Json.str "",
                created_at := Json.str "", updated_at := Json.str "", versions := [] }],
             ["  Fetching versions for: b-lib", "  Fetching versions for: a-lib"], []) := rfl
  exact c3_fetch_packages_sorted_by_name _ _ _ _ h

/-- C4 counterexample: the claim says every listed field of a package record
that is missing from the raw descriptor defaults to the empty string. On the
empty descriptor the package_type field defaults to the string maven, not to
the empty string (source line 43). -/
theorem c4_counterexample_package_type_default :
    buildRecord (fun _ => ApiResp.success (Json.arr [])) "acme" "tok" (Json.obj []) =
      .ok ({ name := "", package_type := Json.str "maven", html_url := Json.str "",
             created_at := Json.str "", updated_at := Json.str "", versions := [] },
           ["  Fetching versions for: "], []) ∧
    Json.str "maven" ≠ Json.str "" :=
  ⟨rfl, by simp⟩

/-- C4 (amended): fields missing from a raw package descriptor default to the
empty string for name, html_url, created_at and updated_at, and to the string
maven for package_type; fields missing from a raw version descriptor all
default to the empty string. -/
theorem c4_get_with_default_fields
    (net : String → ApiResp) (owner token : String)
    (fields vfields : List (String × Json))
    (r : PackageRecord) (out err : List String)
    (h : buildRecord net owner token (Json.obj fields) = .ok (r, out, err))
    (hn : fields.lookup "name" = none) (hp : fields.lookup "package_type" = none)
    (hh : fields.lookup "html_url" = none) (hc : fields.lookup "created_at" = none)
    (hu : fields.lookup "updated_at" = none)
    (hv1 : vfields.lookup "name" = none) (hv2 : vfields.lookup "created_at" = none)
    (hv3 : vfields.lookup "updated_at" = none) (hv4 : vfields.lookup "html_url" = none) :
    (r.name = "" ∧ r.package_type = Json.str "maven" ∧ r.html_url = Json.str "" ∧
      r.created_at = Json.str "" ∧ r.updated_at = Json.str "") ∧
    buildVersion (Json.obj vfields) =
      .ok { name := Json.str "", created_at := Json.str "",
            updated_at := Json.str "", html_url := Json.str "" } := by
  constructor
  · unfold buildRecord at h
    simp only [pyGet, dictGet, hn, hp, hh, hc, hu, asStr] at h
    split at h
    · exact absurd h (by simp)
    · split at h
      · exact absurd h (by simp)
      · injection h with h'
        simp only [Prod.mk.injEq] at h'
        obtain ⟨h1, -, -⟩ := h'
        subst h1
        exact ⟨rfl, rfl, rfl, rfl, rfl⟩
  · simp [buildVersion, pyGet, dictGet, hv1, hv2, hv3, hv4]

/-- C4 witness: the amended statement at the empty package and version
descriptors. -/
theorem c4_get_with_default_fields_witness :
    (({ name := "", package_type := Json.str "maven", html_url := Json.str "",
        created_at := Json.str "", updated_at := Json.str "",
        versions := [] } : PackageRecord).name = "" ∧
      ({ name := "", package_type := Json.str "maven", html_url := Json.str "",
         created_at := Json.str "", updated_at := Json.str "",
         versions := [] } : PackageRecord).package_type = Json.str "maven" ∧
      ({ name := "", package_type := Json.str "maven", html_url := Json.str "",
         created_at := Json.str "", updated_at := Json.str "",
         versions := [] } : PackageRecord).html_url = Json.str "" ∧
      ({ name := "", package_type := Json.str "maven", html_url := Json.str "",
         created_at := Json.str "", updated_at := Json.str "",
         versions := [] } : PackageRecord).created_at = Json.str "" ∧
      ({ name := "", package_type := Json.str "maven", html_url := Json.str "",
         created_at := Json.str "", updated_at := Json.str "",
         versions := [] } : PackageRecord).updated_at = Json.str "") ∧
    buildVersion (Json.obj []) =
      .ok { name := Json.str "", created_at := Json.str "",
            updated_at := Json.str "", html_url := Json.str "" } :=
  c4_get_with_default_fields (fun _ => ApiResp.success (Json.arr [])) "acme" "tok"
    [] []
    { name := "", package_type := Json.str "maven", html_url := Json.str "",
      created_at := Json.str "", updated_at := Json.str "", versions := [] }
    ["  Fetching versions for: "] []
    (by rfl) rfl rfl rfl rfl rfl rfl rfl rfl rfl

set_option maxRecDepth 4000 in
/-- C5 counterexample: the claim says a successful non-list versions response
gets the empty-sequence fallback AND a diagnostic on the error stream, like a
non-list packages response. On a network whose versions endpoint answers with
an error object, fetch_packages does fall back to an empty version sequence,
but the error stream stays empty — no diagnostic is emitted (the
Unexpected-response print of line 31 guards only the packages response). -/
theorem c5_counterexample_silent_nonlist_versions :
    fetch_packages
        (fun u => if u = packagesUrl "acme"
          then ApiResp.success (Json.arr [Json.obj [("name", Json.str "p")]])
          else ApiResp.success (Json.obj [("message", Json.str "bad credentials")]))
        "acme" "tok" =
      .ok ([{ name := "p", package_type := Json.str "maven", html_url := Json.str "",
              created_at := Json.str "", updated_at := Json.str "", versions := [] }],
           ["  Fetching versions for: p"], []) := rfl

/-- C5 (amended): for a package whose versions endpoint returns a successful
non-list response, the assembled record carries an empty version sequence and
nothing is written to the error stream — the fallback is silent; the
diagnostic of line 31 accompanies only a non-list packages response. -/
theorem c5_nonlist_versions_silent_fallback
    (net : String → ApiResp) (owner token name : String)
    (fields : List (String × Json)) (j : Json)
    (hn : fields.lookup "name" = some (Json.str name))
    (hresp : net (versionsUrl owner (name.replace "/" "%2F")) = ApiResp.success j)
    (hnotlist : jsonIsArr j = false) :
    buildRecord net owner token (Json.obj fields) =
      .ok ({ name := name,
             package_type := dictGet fields "package_type" (Json.str "maven"),
             html_url := dictGet fields "html_url" (Json.str ""),
             created_at := dictGet fields "created_at" (Json.str ""),
             updated_at := dictGet fields "updated_at" (Json.str ""),
             versions := [] },
           ["  Fetching versions for: " ++ name], []) := by
  have hl : asList j = [] := by cases j <;> simp_all [jsonIsArr, asList]
  unfold buildRecord
  simp only [pyGet, dictGet, hn, asStr, api_get, hresp, hl, buildVersions, pyStr]

/-- C5 witness: the amended statement at a one-key descriptor and an
error-object versions response. -/
theorem c5_nonlist_versions_silent_fallback_witness :
    buildRecord (fun _ => ApiResp.success (Json.obj [("message", Json.str "boom")]))
        "acme" "tok" (Json.obj [("name", Json.str "p")]) =
      .ok ({ name := "p",
             package_type := dictGet [("name", Json.str "p")] "package_type" (Json.str "maven"),
             html_url := dictGet [("name", Json.str "p")] "html_url" (Json.str ""),
             created_at := dictGet [("name", Json.str "p")] "created_at" (Json.str ""),
             updated_at := dictGet [("name", Json.str "p")] "updated_at" (Json.str ""),
             versions := [] },
           ["  Fetching versions for: " ++ "p"], []) :=
  c5_nonlist_versions_silent_fallback
    (fun _ => ApiResp.success (Json.obj [("message", Json.str "boom")]))
    "acme" "tok" "p" [("name", Json.str "p")] (Json.obj [("message", Json.str "boom")])
    rfl rfl rfl

/-- C6: an HTTP error status is caught inside api_get: one line carrying the
status code, the requested URL and the response body is written to the error
stream, and an empty-collection default is returned (empty list for a URL
mentioning versions or packages, empty dict otherwise); api_get returns
normally instead of propagating the failure. -/
theorem c6_http_error_logged_and_defaulted
    (net : String → ApiResp) (url token : String) (code : Nat) (body : String)
    (h : net url = ApiResp.httpError code body) :
    api_get net url token =
      .ok (if strContains url "versions" || strContains url "packages"
             then Json.arr [] else Json.obj [],
           ["API error " ++ toString code ++ " for " ++ url ++ ": " ++ body]) := by
  unfold api_get
  rw [h]

set_option maxRecDepth 8000 in
/-- C6 witness: a 404 with body Not Found on the packages endpoint yields the
empty-list default and the diagnostic line carrying status, URL and body. -/
theorem c6_http_error_logged_and_defaulted_witness :
    api_get (fun _ => ApiResp.httpError 404 "Not Found") (packagesUrl "acme") "tok" =
      .ok (Json.arr [],
           ["API error 404 for https://api.github.com/users/acme/packages?package_type=maven&per_page=100: Not Found"]) :=
  c6_http_error_logged_and_defaulted (fun _ => ApiResp.httpError 404 "Not Found")
    (packagesUrl "acme") "tok" 404 "Not Found" rfl

/-- C7: running main with fewer than 3 positional arguments (sys.argv shorter
than 4 entries) prints the usage line and exits with status 1; and that
argument check is the only path on which main performs an explicit non-zero
exit: every value mainFn returns through the exited constructor carries code 1
and the usage message and arises only under the argument-count check. -/
theorem c7_usage_exit_iff_too_few_args
    (net : String → ApiResp) (buildTime : String) (argv : List String) :
    (argv.length < 4 → mainFn net buildTime argv = .exited 1 [usageMsg]) ∧
    (∀ c out, mainFn net buildTime argv = .exited c out →
      c = 1 ∧ out = [usageMsg] ∧ argv.length < 4) := by
  constructor
  · intro h
    simp [mainFn, h]
  · intro c out h
    by_cases hlen : argv.length < 4
    · unfold mainFn at h
      rw [if_pos hlen] at h
      injection h with h1 h2
      exact ⟨h1.symm, h2.symm, hlen⟩
    · unfold mainFn at h
      rw [if_neg hlen] at h
      rcases hf : fetch_packages net (argv.getD 1 "") (argv.getD 3 "") with e | ⟨pkgs, outs, errs⟩
      · rw [hf] at h
        exact absurd h (by simp)
      · rw [hf] at h
        simp only [generate_html_nameError] at h
        exact absurd h (by simp)

/-- C7 witness: invoking with no positional arguments exits 1 with the usage
message. -/
theorem c7_usage_exit_iff_too_few_args_witness :
    mainFn (fun _ => ApiResp.urlError "unreachable") "bt" ["generate-index.py"] =
      .exited 1 [usageMsg] :=
  (c7_usage_exit_iff_too_few_args (fun _ => ApiResp.urlError "unreachable") "bt"
    ["generate-index.py"]).1 (by decide)

/-- C8: the claim says the machine-readable serialization embedded in the
produced document parses back to records with the same names and timestamps.
No document is ever produced to parse anything out of: for every package
sequence and every owner, repository, revision and build time, generate_html
raises NameError for pkg_count during template evaluation, before the
serialization (computed as pkg_json) would be interpolated. -/
theorem c8_generate_html_always_raises (packages : List PackageRecord)
    (owner repo commit_sha build_time : String) :
    generate_html packages owner repo commit_sha build_time =
      Except.error (.nameError "pkg_count") := rfl

set_option maxRecDepth 20000 in
/-- C9: the claim says the serialization embedded in the script block is
escaped so it cannot terminate the enclosing script context early. Nothing is
ever embedded: generate_html raises NameError even on a package whose version
name contains a script-closing tag. Moreover the serialization the script
would embed (json.dumps with ensure_ascii=False) leaves that script-closing
substring intact, as the second conjunct evaluates on the serialized text. -/
theorem c9_script_block_escaping :
    generate_html
        [{ name := "x", package_type := Json.str "maven", html_url := Json.str "",
           created_at := Json.str "", updated_at := Json.str "",
           versions := [{ name := Json.str "1.0</script><script>alert(1)</script>",
                          created_at := Json.str "", updated_at := Json.str "",
                          html_url := Json.str "" }] }]
        "acme" "widgets" "" "2024-01-01 00:00:00 UTC" =
      Except.error (.nameError "pkg_count") ∧
    strContains
      (dumpsJson (packagesToJson
        [{ name := "x", package_type := Json.str "maven", html_url := Json.str "",
           created_at := Json.str "", updated_at := Json.str "",
           versions := [{ name := Json.str "1.0</script><script>alert(1)</script>",
                          created_at := Json.str "", updated_at := Json.str "",
                          html_url := Json.str "" }] }]))
      "</script>" = true :=
  ⟨rfl, rfl⟩

/-- C10: api_get absorbs only HTTP status errors. A connection-level URLError
is not caught: it propagates out of api_get, and through fetch_packages it
aborts the whole fetch instead of degrading to an empty default. -/
theorem c10_urlerror_propagates
    (net : String → ApiResp) (url token owner msg : String)
    (h : net url = ApiResp.urlError msg) :
    api_get net url token = .error (.urlError msg) ∧
      fetch_packages (fun _ => ApiResp.urlError msg) owner token =
        .error (.urlError msg) := by
  constructor
  · unfold api_get
    rw [h]
  · rfl

/-- C10 witness: a connection failure on the packages endpoint propagates out
of api_get and out of fetch_packages. -/
theorem c10_urlerror_propagates_witness :
    api_get (fun _ => ApiResp.urlError "connection refused") (packagesUrl "acme") "tok" =
      .error (.urlError "connection refused") ∧
      fetch_packages (fun _ => ApiResp.urlError "connection refused") "acme" "tok" =
        .error (.urlError "connection refused") :=
  c10_urlerror_propagates (fun _ => ApiResp.urlError "connection refused")
    (packagesUrl "acme") "tok" "acme" "connection refused" rfl

end GenerateIndex
